import Mathlib

/-!
Verification of the command-intent classifier and session/state lifecycle of
an Instagram automation bot.  The Python source (instagram_bot.py) is embedded
shallowly: strings are lists of characters, Python exceptions are an `Except`
layer whose handlers (`try`/`except`) are explicit catch functions, and calls
into external collaborators (the instagrapi client, the generative AI
backends, the filesystem) are parameterised by small environment records that
fix each external call's outcome.
-/

set_option autoImplicit false
set_option linter.unusedVariables false

namespace InstagramBot

/-! ### Python string primitives

The source uses `str.lower`, the `in` substring operator, `str.split(sep, 1)`,
`str.replace`, `str.strip` and list indexing.  Each is modelled over
`List Char`; `String.data` converts a Lean string literal. -/

abbrev Str := List Char

/-- Python `str.lower()` restricted to ASCII, which is all the source uses. -/
def lowerStr (s : Str) : Str := s.map Char.toLower

/-- Does `s` start with `pat`? -/
def startsWith : Str → Str → Bool
  | [], _ => true
  | _ :: _, [] => false
  | a :: as, b :: bs => a == b && startsWith as bs

/-- Python `pat in s` substring test. -/
def containsSub (pat : Str) : Str → Bool
  | [] => startsWith pat []
  | c :: rest => startsWith pat (c :: rest) || containsSub pat rest

/-- Left part and remainder at the first occurrence of `pat`, if any. -/
def findSplit (pat : Str) : Str → Option (Str × Str)
  | [] => if startsWith pat [] then some ([], []) else none
  | c :: rest =>
    if startsWith pat (c :: rest) then some ([], (c :: rest).drop pat.length)
    else
      match findSplit pat rest with
      | some (l, r) => some (c :: l, r)
      | none => none

/-- Python `s.split(pat, 1)`: one element when `pat` is absent, two otherwise;
later occurrences of `pat` stay inside the second element. -/
def pySplitOnce (s pat : Str) : List Str :=
  match findSplit pat s with
  | none => [s]
  | some (l, r) => [l, r]

/-- Python whitespace for `str.strip()`. -/
def isPySpace (c : Char) : Bool :=
  c == ' ' || c == '\t' || c == '\n' || c == '\r' || c == '\x0b' || c == '\x0c'

/-- Python `s.strip()`. -/
def pyStrip (s : Str) : Str :=
  ((s.dropWhile isPySpace).reverse.dropWhile isPySpace).reverse

/-- Helper for `pyReplace`: `skip` counts matched characters still being
consumed, so the recursion is structural on the string. -/
def replaceAux (pat repl : Str) : Nat → Str → Str
  | _, [] => []
  | skip + 1, _ :: rest => replaceAux pat repl skip rest
  | 0, c :: rest =>
    if startsWith pat (c :: rest) && !pat.isEmpty then
      repl ++ replaceAux pat repl (pat.length - 1) rest
    else
      c :: replaceAux pat repl 0 rest

/-- Python `s.replace(pat, repl)`: every non-overlapping occurrence, left to
right (for the nonempty patterns the source uses). -/
def pyReplace (s pat repl : Str) : Str := replaceAux pat repl 0 s

/-! ### Python exceptions -/

/-- The exception kinds the embedded code can raise. -/
inductive PyExc where
  | indexError
  | keyError
  | ioError
  | jsonError
  | clientError
  | fileNotFoundError
deriving DecidableEq, Repr

instance {ε α : Type} [DecidableEq ε] [DecidableEq α] : DecidableEq (Except ε α)
  | Except.ok a, Except.ok b =>
    if h : a = b then isTrue (by rw [h]) else isFalse (fun hh => h (Except.ok.inj hh))
  | Except.ok _, Except.error _ => isFalse (fun hh => Except.noConfusion hh)
  | Except.error _, Except.ok _ => isFalse (fun hh => Except.noConfusion hh)
  | Except.error a, Except.error b =>
    if h : a = b then isTrue (by rw [h]) else isFalse (fun hh => h (Except.error.inj hh))

/-- Python `xs[i]` on a list: raises `IndexError` when out of range. -/
def listIndex {α : Type} (xs : List α) (i : Nat) : Except PyExc α :=
  match xs.get? i with
  | some x => Except.ok x
  | none => Except.error PyExc.indexError

/-! ### AIAssistant.process_command -/

/-- A classified intent: the `action` string plus the `details` dict in
insertion order, exactly as the Python dict literals build it. -/
structure Intent where
  action : Str
  details : List (Str × Str)
deriving DecidableEq, Repr

/-- Body of the message branch (the inner `try` block, lines 43-54). -/
def messageBranch (prompt : Str) : Except PyExc Intent := do
  let parts := pySplitOnce prompt "to".data
  let left ← listIndex parts 0
  let message := pyStrip (pyReplace left "send".data [])
  let right ← listIndex parts 1
  let username := pyStrip right
  Except.ok ⟨"message".data, [("username".data, username), ("message".data, message)]⟩

/-- Body of the like branch (the inner `try` block, lines 71-78). -/
def likeBranch (prompt : Str) : Except PyExc Intent := do
  let after ← listIndex (pySplitOnce prompt "like".data) 1
  Except.ok ⟨"like".data, [("post_url".data, pyStrip after)]⟩

/-- Body of the comment branch (the inner `try` block, lines 85-95). -/
def commentBranch (prompt : Str) : Except PyExc Intent := do
  let after ← listIndex (pySplitOnce prompt "comment".data) 1
  let parts := pySplitOnce (pyStrip after) "on".data
  let left ← listIndex parts 0
  let right ← listIndex parts 1
  Except.ok ⟨"comment".data,
    [("post_url".data, pyStrip right), ("comment_text".data, pyStrip left)]⟩

/-- Body of the follow branch (the inner `try` block, lines 102-109). -/
def followBranch (prompt : Str) : Except PyExc Intent := do
  let after ← listIndex (pySplitOnce prompt "follow".data) 1
  Except.ok ⟨"follow".data, [("username".data, pyStrip after)]⟩

/-- Body of the unfollow branch (the inner `try` block, lines 116-123). -/
def unfollowBranch (prompt : Str) : Except PyExc Intent := do
  let after ← listIndex (pySplitOnce prompt "unfollow".data) 1
  Except.ok ⟨"unfollow".data, [("username".data, pyStrip after)]⟩

/-- Each branch's inner `except Exception: return None` handler. -/
def catchToNone (r : Except PyExc Intent) : Option Intent :=
  match r with
  | Except.ok i => some i
  | Except.error _ => none

/-- The `elif` dispatch of `AIAssistant.process_command` (lines 39-130):
keyword tests on the lowercased input, each parsing branch wrapped in its own
handler, and `None` when no keyword matches. -/
def process_command_body (prompt : Str) : Except PyExc (Option Intent) :=
  let command_lower := lowerStr prompt
  if containsSub "send".data command_lower && containsSub "to".data command_lower then
    Except.ok (catchToNone (messageBranch prompt))
  else if containsSub "post".data command_lower || containsSub "create".data command_lower then
    Except.ok (some ⟨"post".data, [("caption".data, prompt), ("image_prompt".data, prompt)]⟩)
  else if containsSub "like".data command_lower then
    Except.ok (catchToNone (likeBranch prompt))
  else if containsSub "comment".data command_lower then
    Except.ok (catchToNone (commentBranch prompt))
  else if containsSub "follow".data command_lower then
    Except.ok (catchToNone (followBranch prompt))
  else if containsSub "unfollow".data command_lower then
    Except.ok (catchToNone (unfollowBranch prompt))
  else
    Except.ok none

/-- `AIAssistant.process_command` (lines 36-134): the body under the outer
`try`; the outer `except` returns `None`. -/
def process_command (prompt : Str) : Except PyExc (Option Intent) :=
  match process_command_body prompt with
  | Except.ok r => Except.ok r
  | Except.error _ => Except.ok none

/-! ### Bot state, filesystem and external-call environments -/

/-- Opaque adapter settings blob; only its identity matters. -/
abbrev Blob := Nat

/-- Parsed content of session.json: either a valid JSON document carrying the
username and logged_in fields, or malformed data on which json.load raises. -/
inductive FileData where
  | valid (username : Option Str) (logged_in : Bool)
  | malformed
deriving DecidableEq, Repr

/-- The two durable files; `none` means the file is absent. -/
structure FS where
  settingsFile : Option Blob
  sessionFile : Option FileData
deriving DecidableEq, Repr

/-- The mutable fields of `InstagramBot` used by the session lifecycle. -/
structure BotState where
  client_settings : Blob
  logged_in : Bool
  username : Option Str
deriving DecidableEq, Repr

/-! ### Session store: save_session, load_session, logout -/

/-- Outcomes of the external calls made by `save_session`. -/
structure SaveEnv where
  dumpFails : Bool
  writeFails : Bool
deriving DecidableEq, Repr

/-- Body of `save_session` (lines 192-199, inside the `try`): dump the client
settings, then write the session metadata; each write can raise. -/
def save_session_body (st : BotState) (fs : FS) (env : SaveEnv) : FS × Except PyExc Unit :=
  if env.dumpFails then (fs, Except.error PyExc.ioError)
  else
    let fs1 : FS := { fs with settingsFile := some st.client_settings }
    if env.writeFails then (fs1, Except.error PyExc.ioError)
    else
      ({ fs1 with sessionFile := some (FileData.valid st.username st.logged_in) },
        Except.ok ())

/-- `InstagramBot.save_session` (lines 191-202): the body with its catch-all
`except` that only logs, so the method itself never raises. -/
def save_session (st : BotState) (fs : FS) (env : SaveEnv) : FS × Except PyExc Unit :=
  let r := save_session_body st fs env
  match r.2 with
  | Except.ok _ => (r.1, Except.ok ())
  | Except.error _ => (r.1, Except.ok ())

/-- Outcomes of the external calls made by `load_session`. -/
structure LoadEnv where
  loadSettingsFails : Bool
  probeOk : Bool
deriving DecidableEq, Repr

/-- Body of `load_session` (lines 205-218, inside the outer `try`): when both
files exist, restore the client settings, parse session.json (raising on
malformed data), restore the two fields, then probe the timeline; the probe
has its own inner handler returning `False`. A missing file skips everything
and reaches the final `return False`. -/
def load_session_body (st : BotState) (fs : FS) (env : LoadEnv) :
    BotState × Except PyExc Bool :=
  match fs.settingsFile, fs.sessionFile with
  | some blob, some content =>
    if env.loadSettingsFails then (st, Except.error PyExc.clientError)
    else
      let st1 := { st with client_settings := blob }
      match content with
      | FileData.malformed => (st1, Except.error PyExc.jsonError)
      | FileData.valid u l =>
        let st2 := { st1 with username := u, logged_in := l }
        if env.probeOk then (st2, Except.ok true)
        else (st2, Except.ok false)
  | _, _ => (st, Except.ok false)

/-- `InstagramBot.load_session` (lines 204-221): the body with the outer
catch-all `except` that logs and falls through to `return False`. -/
def load_session (st : BotState) (fs : FS) (env : LoadEnv) :
    BotState × Except PyExc Bool :=
  let r := load_session_body st fs env
  match r.2 with
  | Except.ok b => (r.1, Except.ok b)
  | Except.error _ => (r.1, Except.ok false)

/-- Outcome of the remote call made by `logout`. -/
structure LogoutEnv where
  clientLogoutFails : Bool
deriving DecidableEq, Repr

/-- Python `os.remove`: raises FileNotFoundError when the file is absent. -/
def os_remove {α : Type} (f : Option α) : Except PyExc (Option α) :=
  match f with
  | some _ => Except.ok none
  | none => Except.error PyExc.fileNotFoundError

/-- The guarded deletion `if os.path.exists(file): os.remove(file)`
(lines 244-245), which makes deletion idempotent. -/
def removeIfExists {α : Type} (f : Option α) : Except PyExc (Option α) :=
  match f with
  | some _ => os_remove f
  | none => Except.ok f

/-- Body of `logout` (lines 240-246, inside the `try`): remote logout first
(raising aborts everything), then clear the two fields, then delete
session.json and instagram_settings.json in that order, each guarded by an
existence check. -/
def logout_body (st : BotState) (fs : FS) (env : LogoutEnv) :
    (BotState × FS) × Except PyExc Unit :=
  if env.clientLogoutFails then ((st, fs), Except.error PyExc.clientError)
  else
    let st1 : BotState := { st with logged_in := false, username := none }
    match removeIfExists fs.sessionFile with
    | Except.error e => ((st1, fs), Except.error e)
    | Except.ok s1 =>
      match removeIfExists fs.settingsFile with
      | Except.error e => ((st1, { fs with sessionFile := s1 }), Except.error e)
      | Except.ok t1 => ((st1, { settingsFile := t1, sessionFile := s1 }), Except.ok ())

/-- `InstagramBot.logout` (lines 238-248): the body with its catch-all
`except` that only logs, so the method itself never raises. -/
def logout (st : BotState) (fs : FS) (env : LogoutEnv) :
    (BotState × FS) × Except PyExc Unit :=
  let r := logout_body st fs env
  match r.2 with
  | Except.ok _ => (r.1, Except.ok ())
  | Except.error _ => (r.1, Except.ok ())

/-! ### Content generation and the orchestrator -/

/-- Outcomes of the generative-backend calls and the delegated account-client
actions. The two generator outcomes are functions of the prompt they are
given; `none` models the failure sentinel each generator returns. -/
structure ExecEnv where
  genContent : Str → Option (Str × Str)
  genImage : Str → Option Str
  sendDmOk : Bool
  likeOk : Bool
  commentOk : Bool
  followOk : Bool
  unfollowOk : Bool

/-- Account-client operations that act on the account. `create_ai_post` is
shown to record none of them (publishing happens only in the UI layer). -/
inductive ClientOp where
  | photoUpload
  | directSend
  | mediaLike
  | mediaComment
  | userFollow
  | userUnfollow
deriving DecidableEq, Repr

/-- `InstagramBot.create_ai_post` (lines 286-301): generate content, fail
early on a falsy caption or image prompt (Python `not` is true on both `None`
and the empty string), generate the image, fail early on a falsy path, else
return the success triple. The second component records every account-client
operation performed: there are none. -/
def create_ai_post (prompt : Str) (env : ExecEnv) :
    (Bool × Option Str × Option Str) × List ClientOp :=
  match env.genContent prompt with
  | none => ((false, none, none), [])
  | some (caption, image_prompt) =>
    if caption.isEmpty || image_prompt.isEmpty then ((false, none, none), [])
    else
      match env.genImage image_prompt with
      | none => ((false, none, none), [])
      | some image_path =>
        if image_path.isEmpty then ((false, none, none), [])
        else ((true, some image_path, some caption), [])

/-- `InstagramBot.send_dm` (lines 303-311): pure delegation to the client,
catching everything into a boolean. -/
def send_dm (username message : Str) (env : ExecEnv) : Bool := env.sendDmOk

/-- `InstagramBot.like_post` (lines 313-321). -/
def like_post (post_url : Str) (env : ExecEnv) : Bool := env.likeOk

/-- `InstagramBot.comment_on_post` (lines 323-331). -/
def comment_on_post (post_url comment : Str) (env : ExecEnv) : Bool := env.commentOk

/-- `InstagramBot.follow_user` (lines 333-341). -/
def follow_user (username : Str) (env : ExecEnv) : Bool := env.followOk

/-- `InstagramBot.unfollow_user` (lines 343-351). -/
def unfollow_user (username : Str) (env : ExecEnv) : Bool := env.unfollowOk

/-- The value `process_natural_command` returns: its annotation promises a
bool, but the post branch forwards the `create_ai_post` tuple unchanged. -/
inductive CommandResult where
  | bool (b : Bool)
  | triple (ok : Bool) (image_path : Option Str) (caption : Option Str)
deriving DecidableEq, Repr

/-- Python `d[k]` on the details dict: raises KeyError when the key is
absent. -/
def dictGet (d : List (Str × Str)) (k : Str) : Except PyExc Str :=
  match d.find? (fun p => p.1 == k) with
  | some p => Except.ok p.2
  | none => Except.error PyExc.keyError

/-- Python `d.get(k, dflt)`. -/
def dictGetD (d : List (Str × Str)) (k dflt : Str) : Str :=
  match d.find? (fun p => p.1 == k) with
  | some p => p.2
  | none => dflt

/-- Body of `process_natural_command` (lines 252-278, inside the `try`):
classify, return `False` on a null intent, then dispatch on the action
string; the post branch returns the `create_ai_post` tuple while every other
branch returns the delegated boolean. -/
def process_natural_command_body (command : Str) (env : ExecEnv) :
    Except PyExc CommandResult := do
  let action_data ← process_command command
  match action_data with
  | none => Except.ok (CommandResult.bool false)
  | some intent =>
    let action := intent.action
    let details := intent.details
    if action = "post".data then
      let r := (create_ai_post (dictGetD details "caption".data command) env).1
      Except.ok (CommandResult.triple r.1 r.2.1 r.2.2)
    else if action = "message".data then do
      let u ← dictGet details "username".data
      let m ← dictGet details "message".data
      Except.ok (CommandResult.bool (send_dm u m env))
    else if action = "like".data then do
      let url ← dictGet details "post_url".data
      Except.ok (CommandResult.bool (like_post url env))
    else if action = "comment".data then do
      let url ← dictGet details "post_url".data
      let c ← dictGet details "comment_text".data
      Except.ok (CommandResult.bool (comment_on_post url c env))
    else if action = "follow".data then do
      let u ← dictGet details "username".data
      Except.ok (CommandResult.bool (follow_user u env))
    else if action = "unfollow".data then do
      let u ← dictGet details "username".data
      Except.ok (CommandResult.bool (unfollow_user u env))
    else
      Except.ok (CommandResult.bool false)

/-- `InstagramBot.process_natural_command` (lines 250-282): the body with its
catch-all `except` returning `False`. -/
def process_natural_command (command : Str) (env : ExecEnv) :
    Except PyExc CommandResult :=
  match process_natural_command_body command env with
  | Except.ok r => Except.ok r
  | Except.error _ => Except.ok (CommandResult.bool false)

/-- A fully successful external environment for concrete evaluations. -/
def demoEnv : ExecEnv where
  genContent := fun _ => some ("Great caption".data, "a sunset over the sea".data)
  genImage := fun _ => some "/tmp/img.jpg".data
  sendDmOk := true
  likeOk := true
  commentOk := true
  followOk := true
  unfollowOk := true

/-! ### Helper lemmas -/

theorem isEmpty_false_of_ne_nil {α : Type} {l : List α} (h : l ≠ []) : l.isEmpty = false := by
  cases l with
  | nil => exact absurd rfl h
  | cons a as => rfl

theorem findSplit_eq_none (pat s : Str) (h : containsSub pat s = false) :
    findSplit pat s = none := by
  induction s with
  | nil =>
    simp only [containsSub] at h
    simp [findSplit, h]
  | cons c rest ih =>
    simp only [containsSub, Bool.or_eq_false_iff] at h
    simp [findSplit, h.1, ih h.2]

theorem likeBranch_err (s : Str) (h : containsSub "like".data s = false) :
    likeBranch s = Except.error PyExc.indexError := by
  simp only [likeBranch, pySplitOnce, findSplit_eq_none _ _ h, listIndex, List.get?]
  rfl

/-! ### The claims -/

/-- Claim C1: the spec says the input "follow bob" classifies as a follow
intent with username "bob" (this half holds), and that "unfollow bob"
classifies as an unfollow intent with username "bob", the rule priority never
letting the follow rule fire on an input containing "unfollow".  The code
violates the second half: the follow `elif` is tested before the unfollow
`elif` and "follow" is a substring of "unfollow", so "unfollow bob" is
classified as a follow intent and the unfollow branch is unreachable.  This
theorem evaluates the code at both inputs. -/
theorem C1_unfollow_input_misfires_follow_rule :
    process_command "follow bob".data =
      Except.ok (some ⟨"follow".data, [("username".data, "bob".data)]⟩) ∧
    process_command "unfollow bob".data =
      Except.ok (some ⟨"follow".data, [("username".data, "bob".data)]⟩) :=
  ⟨by decide, by decide⟩

/-- Claim C2: the spec says `process_natural_command` returns a boolean for
every intent, in particular a boolean and not a tuple for post intents.  The
code violates this for post intents, contradicting its own `-> bool`
annotation: the post branch forwards the 3-tuple from `create_ai_post`
unchanged, while every other branch does return a boolean (the follow conjunct
shows the boolean case). -/
theorem C2_post_intent_returns_triple :
    process_natural_command "post a sunset".data demoEnv =
      Except.ok (CommandResult.triple true (some "/tmp/img.jpg".data)
        (some "Great caption".data)) ∧
    process_natural_command "follow bob".data demoEnv =
      Except.ok (CommandResult.bool true) :=
  ⟨by decide, by decide⟩

/-- Claim C3: `load_session` returns `False` without raising when either
backing file is absent or when the liveness probe fails, and it raises only on
malformed stored data.  The theorem shows the method in fact never raises on
any input (so the "raises only when malformed" direction holds vacuously), and
that absence of either file or a failed probe yields `False`. -/
theorem C3_load_session_spec (st : BotState) (fs : FS) (env : LoadEnv) :
    (∃ b : Bool, (load_session st fs env).2 = Except.ok b) ∧
    ((fs.settingsFile = none ∨ fs.sessionFile = none) →
      (load_session st fs env).2 = Except.ok false) ∧
    (env.probeOk = false → (load_session st fs env).2 = Except.ok false) := by
  rcases fs with ⟨sf, cf⟩
  cases hl : env.loadSettingsFails <;> cases hp : env.probeOk <;>
    rcases sf with _ | b <;> rcases cf with _ | (_ | _) <;>
      simp [load_session, load_session_body, hl, hp]

/-- Witness for C3 at concrete inputs: both files absent, and both files
present with a failing probe. -/
theorem C3_load_session_spec_witness :
    (load_session ⟨0, false, none⟩ ⟨none, none⟩ ⟨false, false⟩).2 = Except.ok false ∧
    (load_session ⟨0, false, none⟩
      ⟨some 7, some (FileData.valid (some "alice".data) true)⟩ ⟨false, false⟩).2 =
      Except.ok false :=
  ⟨(C3_load_session_spec _ _ _).2.1 (Or.inl rfl),
   (C3_load_session_spec _ _ _).2.2 rfl⟩

/-- Claim C4 counterexample: the claim says `save_session` fails with an
IOError when writing either durable location fails.  At an input where the
settings dump raises, the method returns normally (the catch-all handler only
logs), so no IOError escapes. -/
theorem C4_save_failure_not_raised :
    save_session ⟨7, true, some "alice".data⟩ ⟨none, none⟩ ⟨true, false⟩ =
      (⟨none, none⟩, Except.ok ()) := by decide

/-- Claim C4 as amended: `save_session` never fails with an IOError (write
failures are caught and only logged), and on success it has written the
session metadata (username and logged_in) and the settings blob to the two
files. -/
theorem C4_save_session_amended (st : BotState) (fs : FS) (env : SaveEnv) :
    (save_session st fs env).2 = Except.ok () ∧
    (env.dumpFails = false → env.writeFails = false →
      (save_session st fs env).1 =
        ⟨some st.client_settings, some (FileData.valid st.username st.logged_in)⟩) := by
  cases hd : env.dumpFails <;> cases hw : env.writeFails <;>
    simp [save_session, save_session_body, hd, hw]

/-- Witness for the amended C4 at concrete inputs with no write failure. -/
theorem C4_save_session_amended_witness :
    (save_session ⟨7, true, some "alice".data⟩ ⟨none, none⟩ ⟨false, false⟩).1 =
      ⟨some 7, some (FileData.valid (some "alice".data) true)⟩ :=
  (C4_save_session_amended _ _ _).2 rfl rfl

/-- Claim C5: saving and then loading while the remote liveness probe succeeds
restores a session equal to the one saved (username, logged_in flag and
settings blob), and when the probe fails the load returns `False` without
raising. -/
theorem C5_session_roundtrip (st st2 : BotState) (fs : FS) (envS : SaveEnv)
    (envL : LoadEnv) (hd : envS.dumpFails = false) (hw : envS.writeFails = false)
    (hl : envL.loadSettingsFails = false) :
    (envL.probeOk = true →
      (load_session st2 (save_session st fs envS).1 envL).2 = Except.ok true ∧
      (load_session st2 (save_session st fs envS).1 envL).1.username = st.username ∧
      (load_session st2 (save_session st fs envS).1 envL).1.logged_in = st.logged_in ∧
      (load_session st2 (save_session st fs envS).1 envL).1.client_settings =
        st.client_settings) ∧
    (envL.probeOk = false →
      (load_session st2 (save_session st fs envS).1 envL).2 = Except.ok false) := by
  cases hp : envL.probeOk <;>
    simp [save_session, save_session_body, load_session, load_session_body, hd, hw, hl, hp]

/-- Witness for C5: a concrete save followed by a load with a succeeding
probe restores the saved username, and with a failing probe returns False. -/
theorem C5_session_roundtrip_witness :
    (load_session ⟨0, false, none⟩
      (save_session ⟨7, true, some "alice".data⟩ ⟨none, none⟩ ⟨false, false⟩).1
      ⟨false, true⟩).2 = Except.ok true ∧
    (load_session ⟨0, false, none⟩
      (save_session ⟨7, true, some "alice".data⟩ ⟨none, none⟩ ⟨false, false⟩).1
      ⟨false, true⟩).1.username = some "alice".data ∧
    (load_session ⟨0, false, none⟩
      (save_session ⟨7, true, some "alice".data⟩ ⟨none, none⟩ ⟨false, false⟩).1
      ⟨false, false⟩).2 = Except.ok false :=
  ⟨((C5_session_roundtrip _ _ _ _ _ rfl rfl rfl).1 rfl).1,
   ((C5_session_roundtrip _ _ _ _ _ rfl rfl rfl).1 rfl).2.1,
   (C5_session_roundtrip _ _ _ _ _ rfl rfl rfl).2 rfl⟩

/-- Claim C6: the input "send hello there to alice" classifies as a message
intent whose username is "alice" and whose message is "hello there", split at
the first "to", with "send" removed from the left part and both fields
whitespace-trimmed. -/
theorem C6_send_message_classification :
    process_command "send hello there to alice".data =
      Except.ok (some ⟨"message".data,
        [("username".data, "alice".data), ("message".data, "hello there".data)]⟩) := by
  decide

/-- Claim C7: the classifier never raises on any input: a keyword match whose
expected second token is missing (such as "comment nice" with no "on") is
caught by the branch handler and yields `None`, the same result as an input
matching no rule at all (such as "what is the weather"). -/
theorem C7_classifier_never_raises (s : Str) :
    (∃ o : Option Intent, process_command s = Except.ok o) ∧
    process_command "comment nice".data = Except.ok none ∧
    process_command "what is the weather".data = Except.ok none := by
  refine ⟨?_, by decide, by decide⟩
  unfold process_command
  cases process_command_body s with
  | error e => exact ⟨none, rfl⟩
  | ok r => exact ⟨r, rfl⟩

/-- Claim C8 counterexample: the claim says `create_ai_post` returns the
failure triple exactly when a sub-step fails and the success triple otherwise.
Here both generator calls return non-failure values (the caption merely
happens to be the empty string) and yet the result is the failure triple, not
`(true, imagePath, caption)`. -/
theorem C8_empty_caption_fails :
    (create_ai_post "a cat".data
      { genContent := fun _ => some ("".data, "a sunset".data),
        genImage := fun _ => some "/tmp/img.jpg".data,
        sendDmOk := true, likeOk := true, commentOk := true,
        followOk := true, unfollowOk := true }).1 = (false, none, none) := by decide

/-- Claim C8 as amended: `create_ai_post` returns the failure triple
`(false, none, none)` as soon as caption generation fails or yields an empty
caption or image prompt (Python truthiness), or image generation fails or
yields an empty path; when both sub-steps return nonempty values it returns
`(true, imagePath, caption)`; and in every case it records no account-client
operation, so nothing is published. -/
theorem C8_create_ai_post_amended (prompt : Str) (env : ExecEnv) :
    (create_ai_post prompt env).2 = [] ∧
    (env.genContent prompt = none →
      (create_ai_post prompt env).1 = (false, none, none)) ∧
    (∀ caption image_prompt,
      env.genContent prompt = some (caption, image_prompt) →
      ((caption = [] ∨ image_prompt = []) →
        (create_ai_post prompt env).1 = (false, none, none)) ∧
      (caption ≠ [] → image_prompt ≠ [] →
        (env.genImage image_prompt = none →
          (create_ai_post prompt env).1 = (false, none, none)) ∧
        (∀ image_path, env.genImage image_prompt = some image_path →
          (image_path = [] →
            (create_ai_post prompt env).1 = (false, none, none)) ∧
          (image_path ≠ [] →
            (create_ai_post prompt env).1 = (true, some image_path, some caption))))) := by
  refine ⟨?_, ?_, ?_⟩
  · unfold create_ai_post
    repeat' split
    all_goals rfl
  · intro hg
    simp [create_ai_post, hg]
  · intro caption image_prompt hg
    constructor
    · rintro (h | h) <;> subst h <;> simp [create_ai_post, hg]
    · intro hc hip
      constructor
      · intro hi
        simp [create_ai_post, hg, hi, isEmpty_false_of_ne_nil hc,
          isEmpty_false_of_ne_nil hip]
      · intro image_path hi
        constructor
        · intro hp
          subst hp
          simp [create_ai_post, hg, hi, isEmpty_false_of_ne_nil hc,
            isEmpty_false_of_ne_nil hip]
        · intro hp
          simp [create_ai_post, hg, hi, isEmpty_false_of_ne_nil hc,
            isEmpty_false_of_ne_nil hip, isEmpty_false_of_ne_nil hp]

/-- Witness for the amended C8: the success triple at a concrete environment
with nonempty generator outputs. -/
theorem C8_create_ai_post_amended_witness :
    (create_ai_post "a cat".data demoEnv).1 =
      (true, some "/tmp/img.jpg".data, some "Great caption".data) :=
  (((((C8_create_ai_post_amended "a cat".data demoEnv).2.2 "Great caption".data
      "a sunset over the sea".data rfl).2 (by decide) (by decide)).2
      "/tmp/img.jpg".data rfl).2 (by decide))

/-- Claim C9 counterexample: the claim says that for every input whose matched
keyword occurs only in non-lowercase form the classifier returns nothing.
For "CREATE a cat photo" the matched keyword "create" occurs only as
"CREATE" (and "post" does not occur at all), yet the classifier returns the
post intent, because the post rule copies the whole input without splitting
on the keyword. -/
theorem C9_uppercase_create_still_posts :
    containsSub "create".data (lowerStr "CREATE a cat photo".data) = true ∧
    containsSub "create".data "CREATE a cat photo".data = false ∧
    containsSub "post".data (lowerStr "CREATE a cat photo".data) = false ∧
    process_command "CREATE a cat photo".data =
      Except.ok (some ⟨"post".data,
        [("caption".data, "CREATE a cat photo".data),
         ("image_prompt".data, "CREATE a cat photo".data)]⟩) := by decide

/-- Claim C9 as amended: the lowercase-detection/original-case-split mismatch
makes the classifier return nothing only for the rules that split the
original text on the keyword.  For the like rule: whenever "like" occurs in
the lowercased input but not in the original (and no earlier rule matches),
the split yields no second part, the IndexError is caught, and the classifier
returns nothing — as on the concrete input "Like https://example.com/p/123".
The post/create rule does no splitting, so it is exempt (see the
counterexample). -/
theorem C9_nonlowercase_split_keyword (s : Str) :
    ((containsSub "send".data (lowerStr s) && containsSub "to".data (lowerStr s)) = false →
      containsSub "post".data (lowerStr s) = false →
      containsSub "create".data (lowerStr s) = false →
      containsSub "like".data (lowerStr s) = true →
      containsSub "like".data s = false →
      process_command s = Except.ok none) ∧
    process_command "Like https://example.com/p/123".data = Except.ok none := by
  constructor
  · intro hsend hpost hcreate hlike horig
    simp [process_command, process_command_body, hsend, hpost, hcreate, hlike,
      likeBranch_err s horig, catchToNone]
  · decide

/-- Witness for the amended C9 at the concrete input "Like this post url",
discharging every hypothesis by evaluation. -/
theorem C9_nonlowercase_split_keyword_witness :
    process_command "Like https://example.com/p/123".data = Except.ok none :=
  (C9_nonlowercase_split_keyword "Like https://example.com/p/123".data).1
    (by decide) (by decide) (by decide) (by decide) (by decide)

/-- Claim C10: `logout` never raises; when the remote logout call fails the
whole clearing step is skipped, leaving both session files on disk and the
logged_in flag and username unchanged; when the remote call succeeds the
flags are cleared and both files end up absent, the existence-guarded
deletion succeeding even when a file is already missing. -/
theorem C10_logout_spec (st : BotState) (fs : FS) (env : LogoutEnv) :
    (logout st fs env).2 = Except.ok () ∧
    (env.clientLogoutFails = true → (logout st fs env).1 = (st, fs)) ∧
    (env.clientLogoutFails = false →
      (logout st fs env).1 = (⟨st.client_settings, false, none⟩, ⟨none, none⟩)) := by
  rcases fs with ⟨sf, cf⟩
  cases hc : env.clientLogoutFails <;>
    rcases sf with _ | b <;> rcases cf with _ | c <;>
      simp [logout, logout_body, removeIfExists, os_remove, hc]

/-- Witness for C10: a failing remote logout leaves everything in place, and
a succeeding one clears the state and removes both files (also when they were
already absent). -/
theorem C10_logout_spec_witness :
    (logout ⟨3, true, some "bob".data⟩
      ⟨some 3, some (FileData.valid (some "bob".data) true)⟩ ⟨true⟩).1 =
      (⟨3, true, some "bob".data⟩,
        ⟨some 3, some (FileData.valid (some "bob".data) true)⟩) ∧
    (logout ⟨3, true, some "bob".data⟩ ⟨none, none⟩ ⟨false⟩).1 =
      (⟨3, false, none⟩, ⟨none, none⟩) :=
  ⟨(C10_logout_spec _ _ _).2.1 rfl, (C10_logout_spec _ _ _).2.2 rfl⟩

end InstagramBot
